import Mathlib

/-!
Shallow embedding of the Azra-Nishat storefront backend's consistency core:
inventory stock updates (`src/services/inventoryService.js`), cart mutations
(`src/services/cartService.js`), order creation and the order status machine
(`src/controllers/orderController.js`), and review rating aggregation
(`src/services/reviewService.js`).  Service failures (JS `throw new Error(msg)`)
are modelled by `Except String`; a thrown error aborts the operation before any
save, so the persisted state on the error path is the input state.  JS numbers
carrying money and ratings are modelled by `Rat`; stock counts by `Int`.
-/

namespace AzraNishat

/-- A product document.  `countInStock`, `price` and the top-level `ratings`
field are the fields read and written by the services; `ratingAverage` and
`ratingCount` embed the `rating.average` / `rating.count` subdocument declared
in `src/models/Product.js` (schema defaults 0). -/
structure Product where
  id : Nat
  countInStock : Int
  price : Rat
  ratings : Rat
  ratingAverage : Rat
  ratingCount : Nat
  deriving Repr, DecidableEq

/-- `Product.findById` over the product collection. -/
def findProduct (products : List Product) (pid : Nat) : Option Product :=
  products.find? (fun p => p.id = pid)

/-- `Product.findByIdAndUpdate(pid, { countInStock: newStock })`. -/
def setStock (products : List Product) (pid : Nat) (newStock : Int) : List Product :=
  products.map (fun p => if p.id = pid then { p with countInStock := newStock } else p)

/-- `updateStock` from `src/services/inventoryService.js`: load the product
(`Product not found` if absent), compute `newStock = countInStock + delta`,
reject with `Cannot reduce stock below 0` when negative, else persist. -/
def updateStock (products : List Product) (pid : Nat) (delta : Int) :
    Except String (List Product) :=
  match findProduct products pid with
  | none => .error "Product not found"
  | some p =>
    let newStock := p.countInStock + delta
    if newStock < 0 then .error "Cannot reduce stock below 0"
    else .ok (setStock products pid newStock)

/-- Persisted product collection after a sequence of `updateStock` calls; a
call that throws leaves the stored collection as it was. -/
def applyStockDeltas (products : List Product) (ops : List (Nat × Int)) : List Product :=
  ops.foldl
    (fun ps op =>
      match updateStock ps op.1 op.2 with
      | .ok ps' => ps'
      | .error _ => ps)
    products

/-- Result shape of `checkStockAvailability`: the not-found branch returns an
object with no `currentStock`/`requestedQuantity` fields, modelled by `none`. -/
structure StockCheck where
  available : Bool
  currentStock : Option Int
  requestedQuantity : Option Int
  message : String
  deriving Repr, DecidableEq

/-- `checkStockAvailability` from `src/services/inventoryService.js`: a missing
product yields `{available: false, message: 'Product not found'}` (returned,
not thrown); otherwise availability is `countInStock >= quantity` with the
current stock echoed back. -/
def checkStockAvailability (products : List Product) (pid : Nat) (quantity : Int) :
    StockCheck :=
  match findProduct products pid with
  | none => ⟨false, none, none, "Product not found"⟩
  | some p =>
    ⟨decide (p.countInStock ≥ quantity), some p.countInStock, some quantity,
      if p.countInStock ≥ quantity then "Sufficient stock available"
      else "Only " ++ toString p.countInStock ++ " items available"⟩

theorem findProduct_mem {products : List Product} {pid : Nat} {p : Product}
    (h : findProduct products pid = some p) : p ∈ products ∧ p.id = pid := by
  have hm := List.mem_of_find?_eq_some h
  have hp := List.find?_some h
  exact ⟨hm, by simpa using hp⟩

theorem setStock_nonneg {products : List Product} {pid : Nat} {newStock : Int}
    (hps : ∀ p ∈ products, 0 ≤ p.countInStock) (hns : 0 ≤ newStock) :
    ∀ p ∈ setStock products pid newStock, 0 ≤ p.countInStock := by
  intro q hq
  rcases List.mem_map.mp hq with ⟨p, hp, rfl⟩
  by_cases h : p.id = pid
  · simp [h, hns]
  · simpa [h] using hps p hp

theorem updateStock_ok_nonneg {products ps' : List Product} {pid : Nat} {delta : Int}
    (hps : ∀ p ∈ products, 0 ≤ p.countInStock)
    (hok : updateStock products pid delta = .ok ps') :
    ∀ p ∈ ps', 0 ≤ p.countInStock := by
  unfold updateStock at hok
  cases hfind : findProduct products pid with
  | none => simp [hfind] at hok
  | some p =>
    simp only [hfind] at hok
    by_cases hneg : p.countInStock + delta < 0
    · simp [hneg] at hok
    · simp only [hneg, if_false] at hok
      cases hok
      exact setStock_nonneg hps (le_of_not_lt hneg)

theorem applyStockDeltas_nonneg (ops : List (Nat × Int)) (products : List Product)
    (hps : ∀ p ∈ products, 0 ≤ p.countInStock) :
    ∀ p ∈ applyStockDeltas products ops, 0 ≤ p.countInStock := by
  induction ops generalizing products with
  | nil => simpa [applyStockDeltas] using hps
  | cons op rest ih =>
    have hstep : ∀ ps, (∀ p ∈ products, 0 ≤ p.countInStock) →
        (match updateStock products op.1 op.2 with
          | .ok ps' => ps'
          | .error _ => products) = ps → ∀ p ∈ ps, 0 ≤ p.countInStock := by
      intro ps hnn hmatch
      cases hupd : updateStock products op.1 op.2 with
      | ok ps' =>
        rw [hupd] at hmatch
        exact hmatch ▸ updateStock_ok_nonneg hnn hupd
      | error e =>
        rw [hupd] at hmatch
        exact hmatch ▸ hnn
    show ∀ p ∈ applyStockDeltas
        (match updateStock products op.1 op.2 with
          | .ok ps' => ps'
          | .error _ => products) rest, 0 ≤ p.countInStock
    exact ih _ (hstep _ hps rfl)

/-- For claim C6: starting from a collection whose stocks are all nonnegative,
every `updateStock` sequence preserves nonnegativity; and a single call whose
delta would push an existing product's stock negative throws the
insufficient-stock error, leaving the persisted collection unchanged. -/
theorem updateStock_nonneg_invariant (products : List Product)
    (hps : ∀ p ∈ products, 0 ≤ p.countInStock) :
    (∀ ops : List (Nat × Int), ∀ p ∈ applyStockDeltas products ops, 0 ≤ p.countInStock) ∧
    (∀ pid delta p, findProduct products pid = some p → p.countInStock + delta < 0 →
      updateStock products pid delta = .error "Cannot reduce stock below 0" ∧
      applyStockDeltas products [(pid, delta)] = products) := by
  constructor
  · intro ops
    exact applyStockDeltas_nonneg ops products hps
  · intro pid delta p hfind hneg
    have herr : updateStock products pid delta = .error "Cannot reduce stock below 0" := by
      unfold updateStock
      simp [hfind, hneg]
    exact ⟨herr, by simp [applyStockDeltas, herr]⟩

/-- Witness for `updateStock_nonneg_invariant` at a concrete store: one product
with stock 5; deltas −3, −3 leave stock nonnegative (second call rejected), and
the rejected call reports the insufficient-stock error with stock unchanged. -/
theorem updateStock_nonneg_invariant_witness :
    (∀ p ∈ applyStockDeltas [⟨1, 5, 10, 0, 0, 0⟩] [(1, -3), (1, -3)], 0 ≤ p.countInStock) ∧
    (updateStock [⟨1, 2, 10, 0, 0, 0⟩] 1 (-3) = .error "Cannot reduce stock below 0" ∧
      applyStockDeltas [⟨1, 2, 10, 0, 0, 0⟩] [(1, -3)] = [⟨1, 2, 10, 0, 0, 0⟩]) := by
  refine ⟨?_, ?_⟩
  · exact (updateStock_nonneg_invariant [⟨1, 5, 10, 0, 0, 0⟩] (by decide)).1 [(1, -3), (1, -3)]
  · exact (updateStock_nonneg_invariant [⟨1, 2, 10, 0, 0, 0⟩] (by decide)).2 1 (-3)
      ⟨1, 2, 10, 0, 0, 0⟩ (by decide) (by decide)

/-- For claim C9: `checkStockAvailability` on a missing product returns
`available = false`, message `Product not found`, and no `currentStock` field,
without throwing; on an existing product it returns
`available = (countInStock ≥ quantity)` with `currentStock` echoing the
product's stock. -/
theorem checkStockAvailability_spec (products : List Product) (pid : Nat) (quantity : Int) :
    (findProduct products pid = none →
      checkStockAvailability products pid quantity =
        ⟨false, none, none, "Product not found"⟩) ∧
    (∀ p, findProduct products pid = some p →
      (checkStockAvailability products pid quantity).available =
          decide (p.countInStock ≥ quantity) ∧
      (checkStockAvailability products pid quantity).currentStock = some p.countInStock) := by
  constructor
  · intro hnone
    unfold checkStockAvailability
    simp [hnone]
  · intro p hsome
    unfold checkStockAvailability
    simp [hsome]

/-- Witness for `checkStockAvailability_spec`: an empty store yields the
not-found shape for quantity 2; a store with stock 5 yields available for
quantity 2 with `currentStock = 5`. -/
theorem checkStockAvailability_spec_witness :
    checkStockAvailability [] 1 2 = ⟨false, none, none, "Product not found"⟩ ∧
    ((checkStockAvailability [⟨1, 5, 10, 0, 0, 0⟩] 1 2).available = decide ((5 : Int) ≥ 2) ∧
      (checkStockAvailability [⟨1, 5, 10, 0, 0, 0⟩] 1 2).currentStock = some 5) := by
  refine ⟨(checkStockAvailability_spec [] 1 2).1 (by decide), ?_⟩
  exact (checkStockAvailability_spec [⟨1, 5, 10, 0, 0, 0⟩] 1 2).2 ⟨1, 5, 10, 0, 0, 0⟩ (by decide)

/-- A cart line item (`cartItemSchema` in `src/models/Cart.js`): mongoose `_id`
modelled as `itemId`, referenced product id, quantity, and price snapshot. -/
structure CartItem where
  itemId : Nat
  product : Nat
  quantity : Int
  price : Rat
  deriving Repr, DecidableEq

/-- A cart document (`cartSchema`): line items plus the `itemCount` and
`totalAmount` fields, which the schema defaults to 0. -/
structure Cart where
  items : List CartItem
  itemCount : Nat
  totalAmount : Rat
  deriving Repr, DecidableEq

/-- `new Cart({ user: userId, items: [] })`: schema defaults give
`itemCount = 0` and `totalAmount = 0`. -/
def emptyCart : Cart := ⟨[], 0, 0⟩

/-- Sum over items of `price * quantity` (the recomputed cart total named by
the spec's invariant). -/
def cartItemsTotal (items : List CartItem) : Rat :=
  items.foldl (fun acc it => acc + it.price * (it.quantity : Rat)) 0

/-- Mutation of the first list entry satisfying `sel` (the JS
`findIndex` + in-place assignment pattern). -/
def updateFirstItem (sel : CartItem → Bool) (f : CartItem → CartItem) :
    List CartItem → List CartItem
  | [] => []
  | x :: xs => if sel x then f x :: xs else x :: updateFirstItem sel f xs

/-- `addToCart` from `src/services/cartService.js`.  `cart?` is the shopper's
stored cart (`none` when `Cart.findOne` misses and a fresh cart is created);
`newItemId` stands for the `_id` mongoose assigns to a pushed subdocument.
Order of checks mirrors the source: product lookup, `countInStock < quantity`
check, then either merge into the existing line for the same product (re-checking
the merged quantity against stock) or push a new line with a price snapshot.
The service never touches `itemCount`/`totalAmount`. -/
def addToCart (products : List Product) (cart? : Option Cart) (pid : Nat)
    (quantity : Int) (newItemId : Nat) : Except String Cart :=
  match findProduct products pid with
  | none => .error "Product not found"
  | some product =>
    if product.countInStock < quantity then
      .error ("Only " ++ toString product.countInStock ++ " items available")
    else
      let cart := cart?.getD emptyCart
      match cart.items.find? (fun it => it.product = pid) with
      | some it =>
        let newQty := it.quantity + quantity
        if newQty > product.countInStock then
          .error ("Only " ++ toString product.countInStock ++ " items available")
        else
          .ok { cart with
            items := updateFirstItem (fun j => j.product = pid)
              (fun j => { j with quantity := j.quantity + quantity }) cart.items }
      | none =>
        .ok { cart with items := cart.items ++ [⟨newItemId, pid, quantity, product.price⟩] }

/-- `updateCartItem`: missing cart and missing item each throw `NotFound`-style
errors; the referenced product is re-fetched and current stock re-checked; on
success the line's quantity is replaced. -/
def updateCartItem (products : List Product) (cart? : Option Cart) (itemId : Nat)
    (quantity : Int) : Except String Cart :=
  match cart? with
  | none => .error "Cart not found"
  | some cart =>
    match cart.items.find? (fun it => it.itemId = itemId) with
    | none => .error "Cart item not found"
    | some it =>
      match findProduct products it.product with
      | none => .error "Product not found"
      | some product =>
        if product.countInStock < quantity then
          .error ("Only " ++ toString product.countInStock ++ " items available")
        else
          .ok { cart with
            items := updateFirstItem (fun j => j.itemId = itemId)
              (fun j => { j with quantity := quantity }) cart.items }

/-- `removeCartItem`: filters the line out; if the filter removed nothing the
item was absent and the call throws. -/
def removeCartItem (cart? : Option Cart) (itemId : Nat) : Except String Cart :=
  match cart? with
  | none => .error "Cart not found"
  | some cart =>
    let remaining := cart.items.filter (fun it => it.itemId ≠ itemId)
    if remaining.length = cart.items.length then .error "Cart item not found"
    else .ok { cart with items := remaining }

/-- `clearCart`: empties the items array of an existing cart. -/
def clearCart (cart? : Option Cart) : Except String Cart :=
  match cart? with
  | none => .error "Cart not found"
  | some cart => .ok { cart with items := [] }

/-- The four cart mutations, for statements quantifying over "every cart
mutation". -/
inductive CartOp where
  | add (pid : Nat) (quantity : Int) (newItemId : Nat)
  | update (itemId : Nat) (quantity : Int)
  | remove (itemId : Nat)
  | clear
  deriving Repr, DecidableEq

def applyCartOp (products : List Product) (cart? : Option Cart) :
    CartOp → Except String Cart
  | .add pid q nid => addToCart products cart? pid q nid
  | .update itemId q => updateCartItem products cart? itemId q
  | .remove itemId => removeCartItem cart? itemId
  | .clear => clearCart cart?

/-- Stored cart after a mutation: a thrown error happens before `cart.save()`,
so the persisted cart is the input one. -/
def persistedCart (cart? : Option Cart) (r : Except String Cart) : Option Cart :=
  match r with
  | .ok c => some c
  | .error _ => cart?

/-- One product (id 1, stock 5, price 10) for the concrete cart scenarios. -/
def demoProducts : List Product := [⟨1, 5, 10, 0, 0, 0⟩]

/-- Counterexample to claim C2: on the very first successful `addToCart`
(price 10, quantity 2) the persisted cart's `totalAmount` is the schema
default 0, not the recomputed `10 * 2 = 20`, and `itemCount` is 0, not 1 —
no cart mutation ever recomputes the two fields. -/
theorem cart_totals_stale_counterexample :
    addToCart demoProducts none 1 2 100 = .ok ⟨[⟨100, 1, 2, 10⟩], 0, 0⟩ ∧
    cartItemsTotal [⟨100, 1, 2, 10⟩] = 20 ∧
    ¬ ((0 : Rat) = 20 ∧ (0 : Nat) = 1) := by
  refine ⟨rfl, by norm_num [cartItemsTotal], by norm_num⟩

/-- Amended claim C2: no cart mutation recomputes `itemCount` or
`totalAmount` — after every successful `addToCart` / `updateCartItem` /
`removeCartItem` / `clearCart` the persisted cart carries these two fields
unchanged from the stored cart it started from (schema default 0 for a cart
created by the mutation), so they do not track `Σ price·quantity`. -/
theorem cart_totals_never_recomputed (products : List Product) (cart? : Option Cart)
    (op : CartOp) (c : Cart) (hok : applyCartOp products cart? op = .ok c) :
    c.totalAmount = (cart?.getD emptyCart).totalAmount ∧
    c.itemCount = (cart?.getD emptyCart).itemCount := by
  cases op with
  | add pid q nid =>
    simp only [applyCartOp] at hok
    unfold addToCart at hok
    split at hok
    · exact Except.noConfusion hok
    · split at hok
      · exact Except.noConfusion hok
      · dsimp only at hok
        split at hok
        · split at hok
          · exact Except.noConfusion hok
          · injection hok with h
            subst h
            exact ⟨rfl, rfl⟩
        · injection hok with h
          subst h
          exact ⟨rfl, rfl⟩
  | update itemId q =>
    simp only [applyCartOp] at hok
    unfold updateCartItem at hok
    cases cart? with
    | none => exact Except.noConfusion hok
    | some cart =>
      dsimp only at hok
      split at hok
      · exact Except.noConfusion hok
      · split at hok
        · exact Except.noConfusion hok
        · split at hok
          · exact Except.noConfusion hok
          · injection hok with h
            subst h
            exact ⟨rfl, rfl⟩
  | remove itemId =>
    simp only [applyCartOp] at hok
    unfold removeCartItem at hok
    cases cart? with
    | none => exact Except.noConfusion hok
    | some cart =>
      dsimp only at hok
      split at hok
      · exact Except.noConfusion hok
      · injection hok with h
        subst h
        exact ⟨rfl, rfl⟩
  | clear =>
    simp only [applyCartOp] at hok
    unfold clearCart at hok
    cases cart? with
    | none => exact Except.noConfusion hok
    | some cart =>
      injection hok with h
      subst h
      exact ⟨rfl, rfl⟩

/-- Witness for `cart_totals_never_recomputed`: the concrete first add of
quantity 2 at price 10 succeeds and keeps `totalAmount = 0`, `itemCount = 0`. -/
theorem cart_totals_never_recomputed_witness :
    (0 : Rat) = (Option.getD (α := Cart) none emptyCart).totalAmount ∧
    (0 : Nat) = (Option.getD (α := Cart) none emptyCart).itemCount := by
  exact cart_totals_never_recomputed demoProducts none (.add 1 2 100)
    ⟨[⟨100, 1, 2, 10⟩], 0, 0⟩ rfl

theorem updateFirstItem_length (sel : CartItem → Bool) (f : CartItem → CartItem) :
    ∀ l : List CartItem, (updateFirstItem sel f l).length = l.length := by
  intro l
  induction l with
  | nil => rfl
  | cons x xs ih =>
    unfold updateFirstItem
    by_cases h : sel x = true
    · simp [h]
    · simp [h, ih]

theorem find?_updateFirstItem (sel : CartItem → Bool) (f : CartItem → CartItem)
    (hpres : ∀ x, sel x = true → sel (f x) = true) :
    ∀ l : List CartItem, (updateFirstItem sel f l).find? sel = (l.find? sel).map f := by
  intro l
  induction l with
  | nil => rfl
  | cons x xs ih =>
    unfold updateFirstItem
    by_cases h : sel x = true
    · simp [h, List.find?, hpres x h]
    · simp [List.find?, h, ih]

/-- For claim C4: when the shopper's cart already holds a line for the product,
`addToCart` merges the quantity into that line — the number of lines does not
grow and the first matching line carries the summed quantity — and when the
merged total exceeds current stock the call throws the insufficient-stock
error naming the available count, persisting nothing. -/
theorem addToCart_merge_spec {products : List Product} {cart : Cart} {pid : Nat}
    {quantity : Int} {newItemId : Nat} {product : Product} {it : CartItem}
    (hfind : findProduct products pid = some product)
    (hmem : cart.items.find? (fun j => j.product = pid) = some it) :
    (quantity ≤ product.countInStock → it.quantity + quantity ≤ product.countInStock →
      ∃ c, addToCart products (some cart) pid quantity newItemId = .ok c ∧
        c.items.length = cart.items.length ∧
        c.items.find? (fun j => j.product = pid) =
          some { it with quantity := it.quantity + quantity }) ∧
    (it.quantity + quantity > product.countInStock →
      addToCart products (some cart) pid quantity newItemId =
        .error ("Only " ++ toString product.countInStock ++ " items available") ∧
      persistedCart (some cart) (addToCart products (some cart) pid quantity newItemId) =
        some cart) := by
  have hgetD : (Option.getD (some cart) emptyCart) = cart := rfl
  constructor
  · intro hq hsum
    have hnotlt : ¬ product.countInStock < quantity := not_lt.mpr hq
    have hnotover : ¬ it.quantity + quantity > product.countInStock := not_lt.mpr hsum
    refine ⟨{ cart with
                items := updateFirstItem (fun j => j.product = pid)
                  (fun j => { j with quantity := j.quantity + quantity }) cart.items },
      ?_, ?_, ?_⟩
    · unfold addToCart
      rw [hfind]
      dsimp only
      rw [if_neg hnotlt, hgetD, hmem]
      dsimp only
      rw [if_neg hnotover]
    · exact updateFirstItem_length _ _ _
    · have hpres : ∀ x : CartItem, (fun j : CartItem => (decide (j.product = pid))) x = true →
          (fun j : CartItem => (decide (j.product = pid)))
            ({ x with quantity := x.quantity + quantity }) = true := by
        intro x hx
        simpa using hx
      rw [find?_updateFirstItem _ _ hpres, hmem]
      rfl
  · intro hover
    have herr : addToCart products (some cart) pid quantity newItemId =
        .error ("Only " ++ toString product.countInStock ++ " items available") := by
      unfold addToCart
      rw [hfind]
      dsimp only
      by_cases hlt : product.countInStock < quantity
      · rw [if_pos hlt]
      · rw [if_neg hlt, hgetD, hmem]
        dsimp only
        rw [if_pos hover]
    refine ⟨herr, ?_⟩
    rw [herr]
    rfl

/-- Witness for `addToCart_merge_spec`, the spec's scenario: stock 5, first
`addToCart` of quantity 3 succeeds with the cart line at quantity 3, the second
`addToCart` of quantity 3 fails with `Only 5 items available` and the persisted
cart still holds quantity 3. -/
theorem addToCart_merge_spec_witness :
    addToCart demoProducts none 1 3 100 = .ok ⟨[⟨100, 1, 3, 10⟩], 0, 0⟩ ∧
    (addToCart demoProducts (some ⟨[⟨100, 1, 3, 10⟩], 0, 0⟩) 1 3 101 =
        .error ("Only " ++ toString (5 : Int) ++ " items available") ∧
      persistedCart (some ⟨[⟨100, 1, 3, 10⟩], 0, 0⟩)
          (addToCart demoProducts (some ⟨[⟨100, 1, 3, 10⟩], 0, 0⟩) 1 3 101) =
        some ⟨[⟨100, 1, 3, 10⟩], 0, 0⟩) := by
  refine ⟨rfl, ?_⟩
  exact (@addToCart_merge_spec demoProducts ⟨[⟨100, 1, 3, 10⟩], 0, 0⟩ 1 3 101
    ⟨1, 5, 10, 0, 0, 0⟩ ⟨100, 1, 3, 10⟩ rfl rfl).2 (by decide)

/-- An order line item snapshot (product reference, quantity, unit price). -/
structure OrderItem where
  product : Nat
  quantity : Int
  price : Rat
  deriving Repr, DecidableEq

/-- An order document, restricted to the fields the embedded operations read
or write: the monetary breakdown, the creation-time snapshot fields, and the
status-machine fields (`orderStatus`, `shippedDate`, `deliveredDate`,
`isDelivered`).  Timestamps (`Date.now()`) are abstracted as `Nat`. -/
structure Order where
  orderNumber : String
  user : Nat
  items : List OrderItem
  shippingAddress : String
  billingAddress : String
  paymentMethod : String
  subtotal : Rat
  taxAmount : Rat
  shippingCost : Rat
  discountAmount : Rat
  totalAmount : Rat
  orderStatus : String
  shippedDate : Option Nat
  deliveredDate : Option Nat
  isDelivered : Bool
  deriving Repr, DecidableEq

/-- `createOrder` from `src/controllers/orderController.js` lines 275-379:
rejects empty `items`; verifies each referenced product exists (and nothing
else — the stock comment block at lines 310-312 performs no check); then
persists via `Order.create` an order whose `billingAddress` defaults to the
shipping address, whose `taxAmount`/`shippingCost`/`discountAmount` default
to 0 (`x || 0`), and whose `totalAmount` is the caller-supplied value taken
verbatim: the `orderSchema` (concatenated into `src/models/Address.js`, lines
100-172) declares `totalAmount` as a plain required Number with no pre-save
hook, so nothing recomputes it.  `orderStatus` starts at the schema default
`pending`.  `orderNumber` abstracts the generated `ORD-date-random` string;
the result triple is the persisted (products, orders, created order). -/
def createOrder (products : List Product) (orders : List Order) (user : Nat)
    (items : List OrderItem) (shippingAddress : String) (billingAddress : Option String)
    (paymentMethod : String) (subtotal : Rat)
    (taxAmount shippingCost discountAmount : Option Rat) (totalAmount : Rat)
    (orderNumber : String) : Except String (List Product × List Order × Order) :=
  if items.isEmpty then .error "Order must have at least one item"
  else if items.all (fun it => (findProduct products it.product).isSome) then
    let o : Order :=
      { orderNumber := orderNumber
        user := user
        items := items
        shippingAddress := shippingAddress
        billingAddress := billingAddress.getD shippingAddress
        paymentMethod := paymentMethod
        subtotal := subtotal
        taxAmount := taxAmount.getD 0
        shippingCost := shippingCost.getD 0
        discountAmount := discountAmount.getD 0
        totalAmount := totalAmount
        orderStatus := "pending"
        shippedDate := none
        deliveredDate := none
        isDelivered := false }
    .ok (products, orders ++ [o], o)
  else .error "Product not found"

/-- Concrete order persisted in the C1 scenario (`ORD-1`, components
1000/100/50/50, caller-supplied total 999 stored verbatim). -/
def c1Order : Order :=
  ⟨"ORD-1", 7, [⟨1, 2, 10⟩], "addr", "addr", "card", 1000, 100, 50, 50,
    999, "pending", none, none, false⟩

/-- Counterexample to claim C1: `createOrder` persists the caller-supplied
`totalAmount` verbatim — with components subtotal 1000, tax 100, shipping 50,
discount 50 but caller `totalAmount` 999, the persisted order's total is 999,
not the recomputed 1100 (nothing in the controller or the `orderSchema`
recomputes it). -/
theorem createOrder_total_verbatim_counterexample :
    createOrder demoProducts [] 7 [⟨1, 2, 10⟩] "addr" none "card" 1000 (some 100)
      (some 50) (some 50) 999 "ORD-1" = .ok (demoProducts, [c1Order], c1Order) ∧
    c1Order.totalAmount = 999 ∧
    c1Order.subtotal + c1Order.taxAmount + c1Order.shippingCost -
      c1Order.discountAmount = 1100 ∧
    ¬ ((999 : Rat) = 1100) := by
  refine ⟨rfl, rfl, by norm_num [c1Order], by norm_num⟩

/-- Amended claim C1: for every successful `createOrder` the persisted order's
`totalAmount` is the caller-supplied `totalAmount` taken verbatim — it is not
recomputed from the components — while the components themselves are persisted
with their `|| 0` defaults and `billingAddress` defaults to the shipping
address when omitted, so `totalAmount = subtotal + taxAmount + shippingCost −
discountAmount` holds only when the caller supplies such a total. -/
theorem createOrder_totalAmount_verbatim {products : List Product} {orders : List Order}
    {user : Nat} {items : List OrderItem} {shippingAddress : String}
    {billingAddress : Option String} {paymentMethod : String} {subtotal : Rat}
    {taxAmount shippingCost discountAmount : Option Rat} {totalAmount : Rat}
    {orderNumber : String} {ps' : List Product} {os' : List Order} {o : Order}
    (hok : createOrder products orders user items shippingAddress billingAddress
      paymentMethod subtotal taxAmount shippingCost discountAmount totalAmount
      orderNumber = .ok (ps', os', o)) :
    o.totalAmount = totalAmount ∧
    o.subtotal = subtotal ∧
    o.taxAmount = taxAmount.getD 0 ∧
    o.shippingCost = shippingCost.getD 0 ∧
    o.discountAmount = discountAmount.getD 0 ∧
    o.billingAddress = billingAddress.getD shippingAddress := by
  unfold createOrder at hok
  split at hok
  · exact Except.noConfusion hok
  · split at hok
    · injection hok with h
      have ho : o =
          { orderNumber := orderNumber
            user := user
            items := items
            shippingAddress := shippingAddress
            billingAddress := billingAddress.getD shippingAddress
            paymentMethod := paymentMethod
            subtotal := subtotal
            taxAmount := taxAmount.getD 0
            shippingCost := shippingCost.getD 0
            discountAmount := discountAmount.getD 0
            totalAmount := totalAmount
            orderStatus := "pending"
            shippedDate := none
            deliveredDate := none
            isDelivered := false } := by
        have := congrArg (fun t => t.2.2) h
        exact this.symm
      subst ho
      exact ⟨rfl, rfl, rfl, rfl, rfl, rfl⟩
    · exact Except.noConfusion hok

/-- Witness for `createOrder_totalAmount_verbatim`: subtotal 1000, tax 100,
shipping 50, discount 50 with caller `totalAmount` 999 persists total 999 and
the components as supplied, with the billing address defaulted. -/
theorem createOrder_totalAmount_verbatim_witness :
    c1Order.totalAmount = 999 ∧
    c1Order.subtotal = 1000 ∧
    c1Order.taxAmount = 100 ∧
    c1Order.shippingCost = 50 ∧
    c1Order.discountAmount = 50 ∧
    c1Order.billingAddress = "addr" := by
  have h : createOrder demoProducts [] 7 [⟨1, 2, 10⟩] "addr" none "card" 1000 (some 100)
      (some 50) (some 50) 999 "ORD-1" = .ok (demoProducts, [c1Order], c1Order) := rfl
  exact createOrder_totalAmount_verbatim h

/-- For claim C7: whenever the submitted items are non-empty and each
references an existing product, `createOrder` succeeds — no stock condition is
consulted — and the persisted product collection (hence every product's stock
quantity) is exactly the one from before the call. -/
theorem createOrder_no_stock_effect {products : List Product} {orders : List Order}
    {user : Nat} {items : List OrderItem} {shippingAddress : String}
    {billingAddress : Option String} {paymentMethod : String} {subtotal : Rat}
    {taxAmount shippingCost discountAmount : Option Rat} {totalAmount : Rat}
    {orderNumber : String}
    (hne : items ≠ [])
    (hex : ∀ it ∈ items, (findProduct products it.product).isSome = true) :
    ∃ o, createOrder products orders user items shippingAddress billingAddress
      paymentMethod subtotal taxAmount shippingCost discountAmount totalAmount
      orderNumber = .ok (products, orders ++ [o], o) := by
  refine ⟨{ orderNumber := orderNumber
            user := user
            items := items
            shippingAddress := shippingAddress
            billingAddress := billingAddress.getD shippingAddress
            paymentMethod := paymentMethod
            subtotal := subtotal
            taxAmount := taxAmount.getD 0
            shippingCost := shippingCost.getD 0
            discountAmount := discountAmount.getD 0
            totalAmount := totalAmount
            orderStatus := "pending"
            shippedDate := none
            deliveredDate := none
            isDelivered := false }, ?_⟩
  unfold createOrder
  rw [if_neg (by simpa using hne), if_pos (List.all_eq_true.mpr hex)]

/-- Witness for `createOrder_no_stock_effect`: a single item requesting
quantity 100 of the product whose stock is 5 is accepted, and the product
collection after the call is the same one as before. -/
theorem createOrder_no_stock_effect_witness :
    ∃ o, createOrder demoProducts [] 7 [⟨1, 100, 10⟩] "addr" none "card" 1000
      (some 100) (some 50) (some 50) 1200 "ORD-2" = .ok (demoProducts, [] ++ [o], o) := by
  exact createOrder_no_stock_effect (by decide) (by decide)

/-- Notification templates selected by the status-update email block of
`updateOrderStatus` (shipped / delivered / generic status update). -/
inductive Notif where
  | shipped
  | delivered
  | statusUpdate
  deriving Repr, DecidableEq

/-- `updateOrderStatus` from `src/controllers/orderController.js` lines
825-874: records the prior status, assigns the new one, stamps `shippedDate`
with the current time whenever the new status is `shipped` (with no check of
the prior status) and `deliveredDate`/`isDelivered` when `delivered`, saves,
then selects at most one notification: shipped when the status changed into
`shipped`, delivered when it changed into `delivered`, a generic update for
any other change, and none when the prior status equals the new one.  `now`
stands for `Date.now()`. -/
def updateOrderStatus (o : Order) (status : String) (now : Nat) : Order × Option Notif :=
  let oldStatus := o.orderStatus
  let o1 := { o with orderStatus := status }
  let o2 :=
    if status = "shipped" then { o1 with shippedDate := some now }
    else if status = "delivered" then
      { o1 with isDelivered := true, deliveredDate := some now }
    else o1
  let notif :=
    if oldStatus ≠ "shipped" ∧ status = "shipped" then some Notif.shipped
    else if oldStatus ≠ "delivered" ∧ status = "delivered" then some Notif.delivered
    else if oldStatus ≠ status then some Notif.statusUpdate
    else none
  (o2, notif)

/-- Concrete already-shipped order used against claim C5: status `shipped`,
`shippedDate` stamped at time 5. -/
def c5Order : Order :=
  ⟨"ORD-3", 7, [⟨1, 1, 10⟩], "addr", "addr", "card", 10, 0, 0, 0, 10,
    "shipped", some 5, none, false⟩

/-- Counterexample to claim C5: setting status `shipped` on an order already
`shipped` sends no notification, but it DOES re-stamp `shippedDate` (the stamp
at line 838-839 checks only the new status, not the prior one): at time 9 the
stored `shippedDate` becomes 9, not the original 5. -/
theorem shipped_restamp_counterexample :
    (updateOrderStatus c5Order "shipped" 9).2 = none ∧
    (updateOrderStatus c5Order "shipped" 9).1.shippedDate = some 9 ∧
    ¬ ((updateOrderStatus c5Order "shipped" 9).1.shippedDate = c5Order.shippedDate) := by
  refine ⟨rfl, rfl, by decide⟩

/-- Amended claim C5: a transition into `shipped` from a different prior
status stamps `shippedDate` and fires exactly one shipped notification;
setting `shipped` again when already `shipped` fires no notification but still
re-stamps `shippedDate` with the current time. -/
theorem updateOrderStatus_shipped_spec (o : Order) (now : Nat) :
    (o.orderStatus ≠ "shipped" →
      (updateOrderStatus o "shipped" now).1.shippedDate = some now ∧
      (updateOrderStatus o "shipped" now).2 = some Notif.shipped) ∧
    (o.orderStatus = "shipped" →
      (updateOrderStatus o "shipped" now).1.shippedDate = some now ∧
      (updateOrderStatus o "shipped" now).2 = none) := by
  refine ⟨fun h => ?_, fun h => ?_⟩
  · constructor
    · simp [updateOrderStatus]
    · simp [updateOrderStatus, h]
  · constructor
    · simp [updateOrderStatus]
    · simp [updateOrderStatus, h]

/-- Witness for `updateOrderStatus_shipped_spec`: a pending order shipped at
time 4 gets `shippedDate = 4` and the shipped notification; the already
shipped `c5Order` re-shipped at time 9 gets no notification (and the stamp
moves to 9). -/
theorem updateOrderStatus_shipped_spec_witness :
    ((updateOrderStatus ⟨"ORD-4", 7, [], "a", "a", "card", 0, 0, 0, 0, 0,
        "pending", none, none, false⟩ "shipped" 4).1.shippedDate = some 4 ∧
      (updateOrderStatus ⟨"ORD-4", 7, [], "a", "a", "card", 0, 0, 0, 0, 0,
        "pending", none, none, false⟩ "shipped" 4).2 = some Notif.shipped) ∧
    ((updateOrderStatus c5Order "shipped" 9).1.shippedDate = some 9 ∧
      (updateOrderStatus c5Order "shipped" 9).2 = none) := by
  constructor
  · exact (updateOrderStatus_shipped_spec ⟨"ORD-4", 7, [], "a", "a", "card", 0, 0, 0, 0,
      0, "pending", none, none, false⟩ 4).1 (by decide)
  · exact (updateOrderStatus_shipped_spec c5Order 9).2 (by decide)

/-- A review document (`Review` model referenced by
`src/services/reviewService.js`): id, referenced product, author, rating,
comment. -/
structure Review where
  id : Nat
  product : Nat
  user : Nat
  rating : Rat
  comment : String
  deriving Repr, DecidableEq

/-- JS `reviews.reduce((acc, item) => item.rating + acc, 0)`. -/
def ratingSum (rs : List Review) : Rat :=
  rs.foldl (fun acc r => r.rating + acc) 0

/-- The guarded average of `deleteReview` lines 216-218:
`reviews.length > 0 ? sum / length : 0`. -/
def ratingAvg (rs : List Review) : Rat :=
  if rs.length > 0 then ratingSum rs / (rs.length : Rat) else 0

/-- `Product.findByIdAndUpdate(pid, { ratings: avg })`: the review service
writes the computed average onto the product's top-level `ratings` field; the
schema's `rating.average` / `rating.count` subdocument is not touched. -/
def setRatings (products : List Product) (pid : Nat) (avg : Rat) : List Product :=
  products.map (fun p => if p.id = pid then { p with ratings := avg } else p)

/-- `createReview` from `src/services/reviewService.js`: product must exist,
the author must not have reviewed it already, then the review is inserted and
the product's `ratings` field receives `sum / length` over the product's
reviews (no zero-guard in this path — the fresh review makes the set
non-empty).  `newId` stands for the stored document's generated id. -/
def createReview (reviews : List Review) (products : List Product) (pid userId : Nat)
    (rating : Rat) (comment : String) (newId : Nat) :
    Except String (List Review × List Product × Review) :=
  match findProduct products pid with
  | none => .error "Product not found"
  | some _ =>
    if (reviews.find? (fun r => r.product = pid ∧ r.user = userId)).isSome then
      .error "You have already reviewed this product"
    else
      let review : Review := ⟨newId, pid, userId, rating, comment⟩
      let reviews' := reviews ++ [review]
      let rs := reviews'.filter (fun r => r.product = pid)
      .ok (reviews', setRatings products pid (ratingSum rs / (rs.length : Rat)), review)

/-- `updateReview`: returns `null` (modelled `none`) when the review is
missing; throws `Unauthorized` whenever the caller is not the author (the
service takes no role — an admin who is not the author is rejected too);
otherwise replaces rating/comment and recomputes the product's `ratings`
field as in `createReview`. -/
def updateReview (reviews : List Review) (products : List Product)
    (reviewId userId : Nat) (rating : Rat) (comment : String) :
    Except String (List Review × List Product × Option Review) :=
  match reviews.find? (fun r => r.id = reviewId) with
  | none => .ok (reviews, products, none)
  | some review =>
    if review.user ≠ userId then .error "Unauthorized"
    else
      let reviews' := reviews.map (fun r =>
        if r.id = reviewId then { r with rating := rating, comment := comment } else r)
      let rs := reviews'.filter (fun r => r.product = review.product)
      .ok (reviews', setRatings products review.product (ratingSum rs / (rs.length : Rat)),
        some { review with rating := rating, comment := comment })

/-- `deleteReview`: returns `false` when the review is missing; throws
`Unauthorized` unless the caller is the author or has role `admin`; otherwise
removes the review and writes the guarded average of the remaining reviews of
the product onto its `ratings` field. -/
def deleteReview (reviews : List Review) (products : List Product)
    (reviewId userId : Nat) (role : String) :
    Except String (List Review × List Product × Bool) :=
  match reviews.find? (fun r => r.id = reviewId) with
  | none => .ok (reviews, products, false)
  | some review =>
    if review.user ≠ userId ∧ role ≠ "admin" then .error "Unauthorized"
    else
      let reviews' := reviews.filter (fun r => r.id ≠ reviewId)
      let rs := reviews'.filter (fun r => r.product = review.product)
      .ok (reviews', setRatings products review.product (ratingAvg rs), true)

/-- The rating aggregation step shared by the review mutations: fetch all
reviews of the product, average them (guarded as in `deleteReview`), write the
result onto the product. -/
def recomputeRating (reviews : List Review) (pid : Nat) (products : List Product) :
    List Product :=
  setRatings products pid (ratingAvg (reviews.filter (fun r => r.product = pid)))

/-- Stored review/product state after a review operation: a thrown error
happens before any write, so the persisted state is the input state. -/
def persistedReviewState {γ : Type} (s : List Review × List Product)
    (r : Except String (List Review × List Product × γ)) :
    List Review × List Product :=
  match r with
  | .ok t => (t.1, t.2.1)
  | .error _ => s

theorem setRatings_id (p : Product) (target : Nat) (avg : Rat) :
    (if p.id = target then { p with ratings := avg } else p).id = p.id := by
  by_cases h : p.id = target <;> simp [h]

theorem findProduct_setRatings (products : List Product) (target : Nat) (avg : Rat)
    (pid : Nat) :
    findProduct (setRatings products target avg) pid =
      (findProduct products pid).map
        (fun p => if p.id = target then { p with ratings := avg } else p) := by
  induction products with
  | nil => rfl
  | cons p ps ih =>
    show List.find? _ (_ :: List.map _ ps) = _
    by_cases hid : p.id = pid
    · rw [List.find?_cons_of_pos _ (by simpa [setRatings_id] using hid)]
      unfold findProduct
      rw [List.find?_cons_of_pos _ (by simpa using hid)]
      rfl
    · rw [List.find?_cons_of_neg _ (by simpa [setRatings_id] using hid)]
      unfold findProduct
      rw [List.find?_cons_of_neg _ (by simpa using hid)]
      exact ih

/-- For claim C8: the rating aggregation is idempotent — recomputing twice in
a row from an unchanged review set stores the same product state as
recomputing once. -/
theorem recomputeRating_idempotent (reviews : List Review) (pid : Nat)
    (products : List Product) :
    recomputeRating reviews pid (recomputeRating reviews pid products) =
      recomputeRating reviews pid products := by
  unfold recomputeRating setRatings
  rw [List.map_map]
  apply List.map_congr_left
  intro p _
  by_cases h : p.id = pid <;> simp [Function.comp, h]

/-- Product store for the review scenarios: one product with the schema's
default `rating.average = 0`, `rating.count = 0`. -/
def c3Products : List Product := [⟨1, 5, 10, 0, 0, 0⟩]

/-- The spec scenario's review set [5, 3, 4] for product 1. -/
def c3Reviews : List Review :=
  [⟨1, 1, 10, 5, "great"⟩, ⟨2, 1, 11, 3, "ok"⟩, ⟨3, 1, 12, 4, "good"⟩]

/-- Counterexample to claim C3: with reviews [5, 3, 4] on product 1, deleting
the rating-3 review succeeds and leaves 2 reviews, yet the stored
`rating.average` / `rating.count` of the product are still the schema
defaults 0 / 0 — not the claimed 4.5 / 2: the service writes only a
top-level `ratings` value and never maintains a count. -/
theorem review_count_not_updated_counterexample :
    (deleteReview c3Reviews c3Products 2 11 "user").map
        (fun t => (t.1.length, t.2.1.map (fun p => (p.ratingAverage, p.ratingCount)))) =
      .ok (2, [((0 : Rat), (0 : Nat))]) ∧
    ¬ ((0 : Rat) = 9 / 2 ∧ (0 : Nat) = 2) := by
  refine ⟨rfl, by norm_num⟩

/-- Amended claim C3: after every successful review create, update, or delete
for a product P, the service stores onto P's top-level `ratings` field the
average of P's current reviews (sum of ratings over their number, 0 when none
remain), while P's schema `rating.average` and `rating.count` fields are
carried over unchanged — no review count is ever recomputed. -/
theorem review_ratings_write_spec :
    (∀ (reviews : List Review) (products : List Product) (pid userId : Nat)
        (rating : Rat) (comment : String) (newId : Nat) (reviews' : List Review)
        (products' : List Product) (rv : Review) (p : Product),
      createReview reviews products pid userId rating comment newId =
        Except.ok (reviews', products', rv) →
      findProduct products pid = some p →
      findProduct products' pid =
        some { p with ratings := ratingAvg (reviews'.filter (fun r => r.product = pid)) }) ∧
    (∀ (reviews : List Review) (products : List Product) (reviewId userId : Nat)
        (rating : Rat) (comment : String) (reviews' : List Review)
        (products' : List Product) (rv : Review) (review : Review) (p : Product),
      reviews.find? (fun r => r.id = reviewId) = some review →
      updateReview reviews products reviewId userId rating comment =
        Except.ok (reviews', products', some rv) →
      findProduct products review.product = some p →
      findProduct products' review.product =
        some { p with
                ratings := ratingAvg (reviews'.filter (fun r => r.product = review.product)) }) ∧
    (∀ (reviews : List Review) (products : List Product) (reviewId userId : Nat)
        (role : String) (reviews' : List Review) (products' : List Product)
        (review : Review) (p : Product),
      reviews.find? (fun r => r.id = reviewId) = some review →
      deleteReview reviews products reviewId userId role =
        Except.ok (reviews', products', true) →
      findProduct products review.product = some p →
      findProduct products' review.product =
        some { p with
                ratings := ratingAvg (reviews'.filter (fun r => r.product = review.product)) }) := by
  refine ⟨?_, ?_, ?_⟩
  · intro reviews products pid userId rating comment newId reviews' products' rv p hok hp
    unfold createReview at hok
    rw [hp] at hok
    dsimp only at hok
    split at hok
    · exact Except.noConfusion hok
    · injection hok with h
      have hrv : reviews' = reviews ++ [⟨newId, pid, userId, rating, comment⟩] :=
        (congrArg (fun t => t.1) h).symm
      have hps : products' = setRatings products pid
          (ratingSum (reviews'.filter (fun r => r.product = pid)) /
            ((reviews'.filter (fun r => r.product = pid)).length : Rat)) := by
        have := congrArg (fun t => t.2.1) h
        dsimp at this
        rw [← this, hrv]
      have hpos : 0 < (reviews'.filter (fun r => r.product = pid)).length := by
        rw [hrv]
        simp [List.filter_append]
      have havg : ratingAvg (reviews'.filter (fun r => r.product = pid)) =
          ratingSum (reviews'.filter (fun r => r.product = pid)) /
            ((reviews'.filter (fun r => r.product = pid)).length : Rat) := by
        unfold ratingAvg
        rw [if_pos hpos]
      rw [hps, findProduct_setRatings, hp, havg]
      have hid : p.id = pid := (findProduct_mem hp).2
      simp [hid]
  · intro reviews products reviewId userId rating comment reviews' products' rv review p
      hfind hok hp
    unfold updateReview at hok
    rw [hfind] at hok
    dsimp only at hok
    split at hok
    · exact Except.noConfusion hok
    · injection hok with h
      have hrv : reviews' = reviews.map (fun r =>
          if r.id = reviewId then { r with rating := rating, comment := comment } else r) :=
        (congrArg (fun t => t.1) h).symm
      have hps : products' = setRatings products review.product
          (ratingSum (reviews'.filter (fun r => r.product = review.product)) /
            ((reviews'.filter (fun r => r.product = review.product)).length : Rat)) := by
        have := congrArg (fun t => t.2.1) h
        dsimp at this
        rw [← this, hrv]
      have hmemrev : review ∈ reviews := List.mem_of_find?_eq_some hfind
      have hidrev : review.id = reviewId := by
        have := List.find?_some hfind
        simpa using this
      have hmem' : ({ review with rating := rating, comment := comment } : Review) ∈
          reviews' := by
        rw [hrv]
        refine List.mem_map.mpr ⟨review, hmemrev, ?_⟩
        rw [if_pos hidrev]
      have hpos : 0 < (reviews'.filter (fun r => r.product = review.product)).length := by
        refine List.length_pos_of_mem (a := { review with rating := rating, comment := comment })
          (List.mem_filter.mpr ⟨hmem', by simp⟩)
      have havg : ratingAvg (reviews'.filter (fun r => r.product = review.product)) =
          ratingSum (reviews'.filter (fun r => r.product = review.product)) /
            ((reviews'.filter (fun r => r.product = review.product)).length : Rat) := by
        unfold ratingAvg
        rw [if_pos hpos]
      rw [hps, findProduct_setRatings, hp, havg]
      have hid : p.id = review.product := (findProduct_mem hp).2
      simp [hid]
  · intro reviews products reviewId userId role reviews' products' review p hfind hok hp
    unfold deleteReview at hok
    rw [hfind] at hok
    dsimp only at hok
    split at hok
    · exact Except.noConfusion hok
    · injection hok with h
      have hrv : reviews' = reviews.filter (fun r => r.id ≠ reviewId) :=
        (congrArg (fun t => t.1) h).symm
      have hps : products' = setRatings products review.product
          (ratingAvg (reviews'.filter (fun r => r.product = review.product))) := by
        have := congrArg (fun t => t.2.1) h
        dsimp at this
        rw [← this, hrv]
      rw [hps, findProduct_setRatings, hp]
      have hid : p.id = review.product := (findProduct_mem hp).2
      simp [hid]

/-- Witness for `review_ratings_write_spec` at the spec scenario: deleting the
rating-3 review of [5, 3, 4] stores `ratings = 9/2 = 4.5` onto the product
(with `rating.average`/`rating.count` still carried over), and an emptied
review set stores 0. -/
theorem review_ratings_write_spec_witness :
    findProduct (setRatings c3Products 1
        (ratingAvg (([⟨1, 1, 10, 5, "great"⟩, ⟨3, 1, 12, 4, "good"⟩] :
          List Review).filter (fun r => r.product = 1)))) 1 =
      some { (⟨1, 5, 10, 0, 0, 0⟩ : Product) with
              ratings := ratingAvg (([⟨1, 1, 10, 5, "great"⟩, ⟨3, 1, 12, 4, "good"⟩] :
                List Review).filter (fun r => r.product = 1)) } ∧
    ratingAvg (([⟨1, 1, 10, 5, "great"⟩, ⟨3, 1, 12, 4, "good"⟩] :
      List Review).filter (fun r => r.product = 1)) = 9 / 2 ∧
    ratingAvg ([] : List Review) = 0 := by
  refine ⟨?_, ?_, ?_⟩
  · exact review_ratings_write_spec.2.2 c3Reviews c3Products 2 11 "user"
      [⟨1, 1, 10, 5, "great"⟩, ⟨3, 1, 12, 4, "good"⟩]
      (setRatings c3Products 1
        (ratingAvg (([⟨1, 1, 10, 5, "great"⟩, ⟨3, 1, 12, 4, "good"⟩] :
          List Review).filter (fun r => r.product = 1))))
      ⟨2, 1, 11, 3, "ok"⟩ ⟨1, 5, 10, 0, 0, 0⟩ rfl rfl rfl
  · norm_num [ratingAvg, ratingSum, List.filter]
  · rfl

/-- Single-review store for the authorization scenario: review 1 on product 1
authored by user 10. -/
def c10Reviews : List Review := [⟨1, 1, 10, 5, "great"⟩]

/-- For claim C10: `updateReview` rejects every caller who is not the review's
author with `Unauthorized` — the service consults no role, so an admin
non-author is rejected too — and persists nothing; `deleteReview` succeeds for
the author or for any caller with role `admin`, and rejects (persisting
nothing) a non-author whose role is not `admin`. -/
theorem review_auth_spec (reviews : List Review) (products : List Product)
    (reviewId userId : Nat) (rating : Rat) (comment : String) (role : String)
    (review : Review)
    (hfind : reviews.find? (fun r => r.id = reviewId) = some review) :
    (review.user ≠ userId →
      updateReview reviews products reviewId userId rating comment =
        .error "Unauthorized" ∧
      persistedReviewState (reviews, products)
        (updateReview reviews products reviewId userId rating comment) =
        (reviews, products)) ∧
    (review.user = userId ∨ role = "admin" →
      ∃ t, deleteReview reviews products reviewId userId role = .ok t ∧ t.2.2 = true) ∧
    (review.user ≠ userId → role ≠ "admin" →
      deleteReview reviews products reviewId userId role = .error "Unauthorized" ∧
      persistedReviewState (reviews, products)
        (deleteReview reviews products reviewId userId role) = (reviews, products)) := by
  refine ⟨?_, ?_, ?_⟩
  · intro hne
    have herr : updateReview reviews products reviewId userId rating comment =
        .error "Unauthorized" := by
      unfold updateReview
      rw [hfind]
      dsimp only
      rw [if_pos hne]
    refine ⟨herr, ?_⟩
    rw [herr]
    rfl
  · intro hauth
    have hcond : ¬ (review.user ≠ userId ∧ role ≠ "admin") := by
      rcases hauth with h | h
      · exact fun hc => hc.1 (by rw [h])
      · exact fun hc => hc.2 h
    refine ⟨(reviews.filter (fun r => r.id ≠ reviewId),
      setRatings products review.product
        (ratingAvg ((reviews.filter (fun r => r.id ≠ reviewId)).filter
          (fun r => r.product = review.product))), true), ?_, rfl⟩
    unfold deleteReview
    rw [hfind]
    dsimp only
    rw [if_neg hcond]
  · intro hne hrole
    have herr : deleteReview reviews products reviewId userId role =
        .error "Unauthorized" := by
      unfold deleteReview
      rw [hfind]
      dsimp only
      rw [if_pos ⟨hne, hrole⟩]
    refine ⟨herr, ?_⟩
    rw [herr]
    rfl

/-- Witness for `review_auth_spec`: user 99 with role `admin` is not the
author of review 1 (user 10 is) — the update is rejected with `Unauthorized`
and persists nothing, while the delete succeeds. -/
theorem review_auth_spec_witness :
    (updateReview c10Reviews demoProducts 1 99 4 "x" = .error "Unauthorized" ∧
      persistedReviewState (c10Reviews, demoProducts)
        (updateReview c10Reviews demoProducts 1 99 4 "x") = (c10Reviews, demoProducts)) ∧
    (∃ t, deleteReview c10Reviews demoProducts 1 99 "admin" = .ok t ∧ t.2.2 = true) := by
  refine ⟨?_, ?_⟩
  · exact (review_auth_spec c10Reviews demoProducts 1 99 4 "x" "admin"
      ⟨1, 1, 10, 5, "great"⟩ rfl).1 (by decide)
  · exact (review_auth_spec c10Reviews demoProducts 1 99 4 "x" "admin"
      ⟨1, 1, 10, 5, "great"⟩ rfl).2.1 (Or.inr rfl)

end AzraNishat
